import Mathlib

/-!
Verification of the surefire-reports diff tool (`main.py`).

The embedding models the two components of the tool:
* the report loader (`extract_test_suite`, `extract_test_cases`,
  `get_test_case_status`, `get_reports_dict`), which turns parsed XML
  elements into `TestSuite` records keyed by suite name, and
* the differ (`diff_dict` with its helpers `get_num_diff_html`,
  `get_summary_diff_html`, `get_result_html`), which compares two suite
  dictionaries and accumulates an HTML report.

Python dictionaries are modelled as association lists built exclusively
through `dictInsert`, which reproduces CPython semantics: assigning to an
existing key replaces the value in place, assigning a new key appends.
Python `dict.get` is `dictGet`; the raising subscript `d[k]` is
`dictIndex`, returning `Except.error` for a `KeyError`.  File reading and
XML parsing are outside the program logic: the loader is given the list of
parsed document roots in discovery order.
-/

namespace SurefireDiff

/-- Parsed XML element: a tag, an attribute dictionary and the list of
child elements, as exposed by `xml.etree.ElementTree`. -/
inductive XMLElement : Type where
  | mk : String → List (String × String) → List XMLElement → XMLElement

/-- Tag of an element. -/
def XMLElement.tag : XMLElement → String
  | .mk raw_tag _ _ => raw_tag

/-- Attribute dictionary of an element (`element.attrib`). -/
def XMLElement.attrib : XMLElement → List (String × String)
  | .mk _ a _ => a

/-- Direct children of an element. -/
def XMLElement.children : XMLElement → List XMLElement
  | .mk _ _ c => c

/-- Python `d.get(k, None)`: the value at the first matching key, if any. -/
def dictGet {α : Type} (d : List (String × α)) (k : String) : Option α :=
  match d with
  | [] => none
  | (k1, v1) :: rest => if k = k1 then some v1 else dictGet rest k

/-- Replacement of the binding of `k` by `v`, leaving other pairs alone. -/
def dictReplace {α : Type} (k : String) (v : α) (p : String × α) : String × α :=
  if p.1 = k then (k, v) else p

/-- Python `d[k] = v`: replace the value in place when the key is present,
append a fresh binding otherwise. -/
def dictInsert {α : Type} (d : List (String × α)) (k : String) (v : α) : List (String × α) :=
  if (dictGet d k).isSome then d.map (dictReplace k v)
  else d ++ [(k, v)]

/-- Python `d[k]` on a read: the value, or a `KeyError` for a missing key. -/
def dictIndex {α : Type} (d : List (String × α)) (k : String) : Except String α :=
  match dictGet d k with
  | some v => Except.ok v
  | none => Except.error ("KeyError: " ++ k)

/-- `element.find(tag)`: the first direct child carrying the tag. -/
def ET_find (e : XMLElement) (t : String) : Option XMLElement :=
  e.children.find? (fun c => decide (c.tag = t))

/-- `element.findall(tag)`: all direct children carrying the tag. -/
def ET_findall (e : XMLElement) (t : String) : List XMLElement :=
  e.children.filter (fun c => decide (c.tag = t))

/-- The test suite of one xml file (`class TestSuite` in `main.py`): the
class name, the four summary counters exactly as they appear in the file
(raw attribute strings), and the map from test case names to results. -/
structure TestSuite : Type where
  class_name : String
  total_num : String
  error_num : String
  failure_num : String
  skipped_num : String
  test_cases : List (String × String)
deriving DecidableEq

instance : Inhabited TestSuite := ⟨⟨"", "", "", "", "", []⟩⟩

/-- `TestSuite.get_summary` from `main.py`. -/
def get_summary (s : TestSuite) : String :=
  "Total " ++ s.total_num ++ ", Failures " ++ s.failure_num ++
    ", Errors " ++ s.error_num ++ ", Skipped " ++ s.skipped_num

/-- `get_test_case_status` from `main.py`: child markers are checked in the
order `error`, `skipped`, `failure`; no marker means `success`. -/
def get_test_case_status (test_case : XMLElement) : String :=
  match ET_find test_case "error" with
  | some _ => "error"
  | none =>
    match ET_find test_case "skipped" with
    | some _ => "skipped"
    | none =>
      match ET_find test_case "failure" with
      | some _ => "failure"
      | none => "success"

/-- `extract_test_cases` from `main.py`: builds the case dictionary with
`cases_dict[test_case.attrib["name"]] = get_test_case_status(test_case)`;
the subscript on `attrib` can raise a `KeyError`. -/
def extract_test_cases (test_suite : XMLElement) : Except String (List (String × String)) :=
  (ET_findall test_suite "testcase").foldlM
    (fun cases_dict test_case => do
      let n ← dictIndex test_case.attrib "name"
      Except.ok (dictInsert cases_dict n (get_test_case_status test_case)))
    []

/-- `extract_test_suite` from `main.py`: the five root attribute reads
`attr['name']`, `attr['tests']`, `attr['errors']`, `attr['failures']`,
`attr['skipped']` happen in that order and each can raise a `KeyError`. -/
def extract_test_suite (test_suite : XMLElement) : Except String TestSuite := do
  let n ← dictIndex test_suite.attrib "name"
  let tests ← dictIndex test_suite.attrib "tests"
  let errors ← dictIndex test_suite.attrib "errors"
  let failures ← dictIndex test_suite.attrib "failures"
  let skipped ← dictIndex test_suite.attrib "skipped"
  let cases ← extract_test_cases test_suite
  Except.ok ⟨n, tests, errors, failures, skipped, cases⟩

/-- A suite dictionary: suite names to suite records, one per directory. -/
abbrev SuiteMap := List (String × TestSuite)

/-- `get_reports_dict` from `main.py`, applied to the parsed document roots
of the directory's files in discovery order: extract each suite and store
it with `test_suite_dict[entity.class_name] = entity`. -/
def get_reports_dict (xml_reports : List XMLElement) : Except String SuiteMap :=
  xml_reports.foldlM
    (fun test_suite_dict test_suite_root => do
      let test_suite_entity ← extract_test_suite test_suite_root
      Except.ok (dictInsert test_suite_dict test_suite_entity.class_name test_suite_entity))
    []

/-- `get_num_diff_html` from `main.py`: compares two counter strings with
`!=` and renders the after-side value, in red when it differs. -/
def get_num_diff_html (junit4_num junit5_num : String) : Bool × String :=
  if junit4_num ≠ junit5_num then
    (false, "<span style=\"color:red;\">" ++ junit5_num ++ "</span>")
  else
    (true, junit5_num)

/-- `get_summary_diff_html` from `main.py`: pairwise comparison of the four
summary counters (total, failure, error, skipped) and the two summary rows. -/
def get_summary_diff_html (junit4_test_suite junit5_test_suite : TestSuite) : Bool × String :=
  let total_diff := get_num_diff_html junit4_test_suite.total_num junit5_test_suite.total_num
  let failure_diff := get_num_diff_html junit4_test_suite.failure_num junit5_test_suite.failure_num
  let error_diff := get_num_diff_html junit4_test_suite.error_num junit5_test_suite.error_num
  let skipped_diff := get_num_diff_html junit4_test_suite.skipped_num junit5_test_suite.skipped_num
  let pass_diff := total_diff.1 && failure_diff.1 && error_diff.1 && skipped_diff.1
  let color := if pass_diff then "#dddddd" else "#ff7575"
  let html_temp :=
    "<td rowspan=\"2\" style=\"font-weight:900;background:" ++ color ++
      ";\">Summary</td><td colspan=\"3\">Junit 4: " ++ get_summary junit4_test_suite ++ "</td></tr>"
  let html_temp := html_temp ++
    "<tr><td colspan=\"3\">Junit 5: Total " ++ total_diff.2 ++ ", Failures " ++ failure_diff.2 ++
      ", Errors " ++ error_diff.2 ++ ", Skipped " ++ skipped_diff.2 ++ "</td></tr>"
  (pass_diff, html_temp)

/-- `get_result_html` from `main.py`: the PASS/FAIL banner. -/
def get_result_html (pass_diff : Bool) : String :=
  if pass_diff then
    "Final Diff Result : <span style=\"color:green;\">PASS</span>"
  else
    "Final Diff Result : <span style=\"color:red;\">FAIL</span>"

/-- One iteration of the inner loop of `diff_dict` over the baseline
suite's test cases.  The running state is the mutated locals
`(pass_diff, html_content, first_case)`. -/
def diff_case_step (junit5_test_suite : TestSuite)
    (st : Bool × String × Bool) (tc : String × String) : Bool × String × Bool :=
  let pass_diff := st.1
  let html_content := st.2.1
  let first_case := st.2.2
  let test_case_name := tc.1
  let junit4_test_case_status := tc.2
  let junit5_test_case_status := dictGet junit5_test_suite.test_cases test_case_name
  let html_content := if first_case then html_content else html_content ++ "<tr>"
  let html_content := html_content ++ "<td>" ++ test_case_name ++ "</td>"
  match junit5_test_case_status with
  | some junit5_status =>
    if junit5_status = junit4_test_case_status then
      (pass_diff,
        html_content ++ "<td style=\"color:green;\">O</td>" ++
          "<td>" ++ junit4_test_case_status ++ "</td><td>" ++ junit5_status ++ "</td>",
        false)
    else
      (false,
        html_content ++ "<td style=\"background:#ff7575;\">X (Test status does not match.)</td>" ++
          "<td>" ++ junit4_test_case_status ++ "</td><td>" ++ junit5_status ++ "</td>",
        false)
  | none =>
    (false,
      html_content ++ "<td colspan=\"3\" style=\"background:#ff7575;\">Junit 4 test case lost.</td>",
      false)

/-- One iteration of the outer loop of `diff_dict` over the baseline suite
dictionary.  The running state is the mutated locals
`(pass_diff, html_content)`. -/
def diff_suite_entry (junit5_dict : SuiteMap)
    (acc : Bool × String) (e : String × TestSuite) : Bool × String :=
  let pass_diff := acc.1
  let html_content := acc.2
  let test_suite_name := e.1
  let junit4_test_suite := e.2
  match dictGet junit5_dict test_suite_name with
  | some junit5_test_suite =>
    let row_span := junit4_test_suite.test_cases.length + 2
    let html_content := html_content ++
      "<tr><td rowspan=\"" ++ toString row_span ++ "\">" ++ test_suite_name ++ "</td>"
    let st := junit4_test_suite.test_cases.foldl
      (diff_case_step junit5_test_suite) (pass_diff, html_content, true)
    let pass_diff := st.1
    let html_content := st.2.1
    let first_case := st.2.2
    let html_content := if first_case then html_content else html_content ++ "</tr><tr>"
    let summary_diff := get_summary_diff_html junit4_test_suite junit5_test_suite
    let html_content := html_content ++ summary_diff.2
    let pass_diff := if summary_diff.1 then pass_diff else false
    (pass_diff, html_content)
  | none =>
    (false,
      html_content ++ "<tr><td>" ++ test_suite_name ++
        "</td><td colspan=\"4\" style=\"background:#ff7575;\">Junit 4 Test lost.</td></tr>")

/-- The comparison loop of `diff_dict`: fold the outer loop over the
baseline dictionary starting from `pass_diff = True`, `html_content = ""`. -/
def diff_fold (junit4_dict junit5_dict : SuiteMap) : Bool × String :=
  junit4_dict.foldl (diff_suite_entry junit5_dict) (true, "")

/-- The surrounding document written by `diff_dict` when an html target is
supplied, with the banner and the fixed table header. -/
def full_document (pass_diff : Bool) (html_content : String) : String :=
  "<!DOCTYPE html><html><head><title>Diff Result</title></head><body>" ++
    "<p>" ++ get_result_html pass_diff ++
    "</p><div><table border=\"1px solid\"><tr style=\"background:#c9c8c8;\"><th " ++
    "rowspan=\"2\">Junit 4 Test Class</th><th rowspan=\"2\"> " ++
    "Junit 4 Test Cases</th><th colspan=\"3\">Diff Result</th></tr>" ++
    "<tr style=\"background:#c9c8c8;\"><th>result</th><th>Junit 4</th><th>Junit 5</th>" ++
    "</tr>" ++ html_content ++ "</table></div></body></html>"

/-- Observable outcome of one call of `diff_dict`: the final value of the
`pass_diff` local, the accumulated `html_content`, the file write performed
when an html target was supplied, and the value the function returns to the
caller.  `diff_dict` has no `return` statement, so it returns Python
`None`, modelled as `retVal = none`; a hypothetical `return pass_diff`
would be `some pass_diff`. -/
structure DiffRun : Type where
  passDiff : Bool
  htmlContent : String
  fileWrite : Option (String × String)
  retVal : Option Bool
deriving DecidableEq

/-- `diff_dict` from `main.py`: compare the two suite dictionaries and,
when `html` is supplied, write the rendered document there. -/
def diff_dict (junit4_dict junit5_dict : SuiteMap) (html : Option String) : DiffRun :=
  let r := diff_fold junit4_dict junit5_dict
  { passDiff := r.1
    htmlContent := r.2
    fileWrite :=
      match html with
      | some path => some (path, full_document r.1 r.2)
      | none => none
    retVal := none }

/-- Whether an `Except` computation succeeded. -/
def exceptIsOk {ε α : Type} : Except ε α → Bool
  | Except.ok _ => true
  | Except.error _ => false

/-- The suite extracted from a root element, totalised for use in
statements that carry a separate success hypothesis. -/
def extractD (r : XMLElement) : TestSuite :=
  (extract_test_suite r).toOption.getD default

/-- The dictionary built by inserting a list of suites in order under their
class names, exactly as the loop of `get_reports_dict` does. -/
def buildSuites (ss : List TestSuite) : SuiteMap :=
  ss.foldl (fun test_suite_dict s => dictInsert test_suite_dict s.class_name s) []

/-- The whole pipeline of `main.py` up to the verdict: load both report
directories (given as parsed roots in discovery order) and compute the
`pass_diff` boolean of `diff_dict`. -/
def run_verdict (junit4_reports junit5_reports : List XMLElement) : Except String Bool := do
  let junit4_dict ← get_reports_dict junit4_reports
  let junit5_dict ← get_reports_dict junit5_reports
  Except.ok (diff_dict junit4_dict junit5_dict none).passDiff

/-- Verdict contribution of one baseline test case against the candidate
suite: found with the same status. -/
def case_ok (junit5_test_suite : TestSuite) (tc : String × String) : Bool :=
  match dictGet junit5_test_suite.test_cases tc.1 with
  | some junit5_status => decide (junit5_status = tc.2)
  | none => false

/-- Html cells produced for one baseline test case; `first_case` tells
whether the row opening `<tr>` is suppressed. -/
def case_frag (junit5_test_suite : TestSuite) (first_case : Bool) (tc : String × String) : String :=
  match dictGet junit5_test_suite.test_cases tc.1 with
  | some junit5_status =>
    if junit5_status = tc.2 then
      (if first_case then "" else "<tr>") ++ "<td>" ++ tc.1 ++
        "</td><td style=\"color:green;\">O</td><td>" ++ tc.2 ++
        "</td><td>" ++ junit5_status ++ "</td>"
    else
      (if first_case then "" else "<tr>") ++ "<td>" ++ tc.1 ++
        "</td><td style=\"background:#ff7575;\">X (Test status does not match.)</td><td>" ++ tc.2 ++
        "</td><td>" ++ junit5_status ++ "</td>"
  | none =>
    (if first_case then "" else "<tr>") ++ "<td>" ++ tc.1 ++
      "</td><td colspan=\"3\" style=\"background:#ff7575;\">Junit 4 test case lost.</td>"

/-- Html cells produced for a list of baseline test cases. -/
def cases_frag (junit5_test_suite : TestSuite) (first_case : Bool) :
    List (String × String) → String
  | [] => ""
  | tc :: rest => case_frag junit5_test_suite first_case tc ++ cases_frag junit5_test_suite false rest

/-- Verdict contribution of one baseline suite entry: the candidate suite
exists, every baseline case matches, and the four summary counters agree. -/
def entry_ok (junit5_dict : SuiteMap) (e : String × TestSuite) : Bool :=
  match dictGet junit5_dict e.1 with
  | some junit5_test_suite =>
    e.2.test_cases.all (case_ok junit5_test_suite) &&
      (get_summary_diff_html e.2 junit5_test_suite).1
  | none => false

/-- Html row group produced for one baseline suite entry. -/
def entry_frag (junit5_dict : SuiteMap) (e : String × TestSuite) : String :=
  match dictGet junit5_dict e.1 with
  | some junit5_test_suite =>
    "<tr><td rowspan=\"" ++ toString (e.2.test_cases.length + 2) ++ "\">" ++ e.1 ++ "</td>" ++
      cases_frag junit5_test_suite true e.2.test_cases ++
      (if e.2.test_cases.isEmpty then "" else "</tr><tr>") ++
      (get_summary_diff_html e.2 junit5_test_suite).2
  | none =>
    "<tr><td>" ++ e.1 ++
      "</td><td colspan=\"4\" style=\"background:#ff7575;\">Junit 4 Test lost.</td></tr>"

/-- Html row groups produced for a list of baseline suite entries. -/
def suites_frag (junit5_dict : SuiteMap) : SuiteMap → String
  | [] => ""
  | e :: rest => entry_frag junit5_dict e ++ suites_frag junit5_dict rest

/-- The spec's overall-verdict condition, written from its words: every
baseline suite identifier is present in the candidate dictionary, every
baseline case is present in the matching candidate suite with an equal
outcome, and the four summary counters agree. -/
def specPass (junit4_dict junit5_dict : SuiteMap) : Prop :=
  ∀ e ∈ junit4_dict, ∃ junit5_test_suite,
    dictGet junit5_dict e.1 = some junit5_test_suite ∧
    (∀ tc ∈ e.2.test_cases, dictGet junit5_test_suite.test_cases tc.1 = some tc.2) ∧
    e.2.total_num = junit5_test_suite.total_num ∧
    e.2.failure_num = junit5_test_suite.failure_num ∧
    e.2.error_num = junit5_test_suite.error_num ∧
    e.2.skipped_num = junit5_test_suite.skipped_num

/-- The well-formedness every Python dictionary enjoys by construction:
suite keys are distinct, and so are the case keys inside each suite. -/
@[reducible] def WellFormedMap (m : SuiteMap) : Prop :=
  (m.map Prod.fst).Nodup ∧ ∀ e ∈ m, ((e.2).test_cases.map Prod.fst).Nodup

/-- Discrepancy count of one baseline case, following the spec glossary
(a missing case or a mismatched outcome is one discrepancy). -/
def case_discrepancies (junit5_test_suite : TestSuite) (tc : String × String) : Nat :=
  match dictGet junit5_test_suite.test_cases tc.1 with
  | some junit5_status => if junit5_status = tc.2 then 0 else 1
  | none => 1

/-- Discrepancy count of the four summary counters, following the spec
glossary (each mismatched counter is one discrepancy). -/
def counter_discrepancies (junit4_test_suite junit5_test_suite : TestSuite) : Nat :=
  (if junit4_test_suite.total_num = junit5_test_suite.total_num then 0 else 1) +
  (if junit4_test_suite.failure_num = junit5_test_suite.failure_num then 0 else 1) +
  (if junit4_test_suite.error_num = junit5_test_suite.error_num then 0 else 1) +
  (if junit4_test_suite.skipped_num = junit5_test_suite.skipped_num then 0 else 1)

/-- Discrepancy count of one baseline suite entry, following the spec
glossary (a missing suite is one discrepancy; otherwise the case and
counter discrepancies add up). -/
def entry_discrepancies (junit5_dict : SuiteMap) (e : String × TestSuite) : Nat :=
  match dictGet junit5_dict e.1 with
  | some junit5_test_suite =>
    (e.2.test_cases.map (case_discrepancies junit5_test_suite)).sum +
      counter_discrepancies e.2 junit5_test_suite
  | none => 1

/-- Total discrepancy count of a diff, following the spec glossary. -/
def numDiscrepancies (junit4_dict junit5_dict : SuiteMap) : Nat :=
  (junit4_dict.map (entry_discrepancies junit5_dict)).sum

/-- Agreement of two candidate lookups from the point of view of one
baseline suite: both absent, or both present with equal counters and equal
lookups at every baseline case name. -/
def suiteAgree (junit4_test_suite : TestSuite) :
    Option TestSuite → Option TestSuite → Bool
  | none, none => true
  | some s5, some s5' =>
    decide (s5.total_num = s5'.total_num) && decide (s5.failure_num = s5'.failure_num) &&
      decide (s5.error_num = s5'.error_num) && decide (s5.skipped_num = s5'.skipped_num) &&
      junit4_test_suite.test_cases.all
        (fun tc => decide (dictGet s5.test_cases tc.1 = dictGet s5'.test_cases tc.1))
  | _, _ => false

/-- Agreement of two candidate dictionaries on everything the baseline
keys can reach. -/
@[reducible] def candAgree (junit4_dict c c' : SuiteMap) : Prop :=
  ∀ e ∈ junit4_dict, suiteAgree e.2 (dictGet c e.1) (dictGet c' e.1) = true

/-- Numeric denotation of a digit string, used only to state that two
counter spellings denote the same non-negative integer. -/
def strToNat (s : String) : Nat :=
  s.data.foldl (fun a c => 10 * a + (c.toNat - 48)) 0

/-- Example test case element carrying a `failure` marker. -/
def tcFailEx : XMLElement := .mk "testcase" [("name", "t")] [.mk "failure" [] []]

/-- Example test case element with no marker (a success). -/
def tcOkEx : XMLElement := .mk "testcase" [("name", "t")] []

/-- Example test case element with no `name` attribute. -/
def tcNoNameEx : XMLElement := .mk "testcase" [] []

/-- Example report root: suite `S` whose single case `t` failed. -/
def rootFailEx : XMLElement :=
  .mk "testsuite"
    [("name", "S"), ("tests", "1"), ("errors", "0"), ("failures", "1"), ("skipped", "0")]
    [tcFailEx]

/-- Example report root: suite `S` whose single case `t` succeeded. -/
def rootOkEx : XMLElement :=
  .mk "testsuite"
    [("name", "S"), ("tests", "1"), ("errors", "0"), ("failures", "0"), ("skipped", "0")]
    [tcOkEx]

/-- Example report root: suite `T` with no cases. -/
def rootTEx : XMLElement :=
  .mk "testsuite"
    [("name", "T"), ("tests", "0"), ("errors", "0"), ("failures", "0"), ("skipped", "0")]
    []

/-- Example report root with all five summary attributes but a test case
child that lacks its `name` attribute. -/
def rootBadCaseEx : XMLElement :=
  .mk "testsuite"
    [("name", "S"), ("tests", "1"), ("errors", "0"), ("failures", "0"), ("skipped", "0")]
    [tcNoNameEx]

/-- Example suite record: one successful case `t`. -/
def suiteAEx : TestSuite := ⟨"S", "1", "0", "0", "0", [("t", "success")]⟩

/-- Example suite record: same shape as `suiteAEx` but case `t` failed. -/
def suiteBEx : TestSuite := ⟨"S", "1", "0", "1", "0", [("t", "failure")]⟩

/-- Example suite record whose total counter is spelled `01`. -/
def suiteCEx : TestSuite := ⟨"S", "01", "0", "0", "0", [("t", "success")]⟩

/-- Example candidate-only suite record. -/
def suiteDEx : TestSuite := ⟨"U", "0", "0", "0", "0", []⟩

/-- Example suite record: `suiteAEx` with an extra candidate-only case. -/
def suiteAPlusEx : TestSuite := ⟨"S", "1", "0", "0", "0", [("t", "success"), ("u", "error")]⟩

/-! Dictionary lemmas. -/

theorem dictGet_append {α : Type} (d1 d2 : List (String × α)) (k : String) :
    dictGet (d1 ++ d2) k =
      match dictGet d1 k with
      | some v => some v
      | none => dictGet d2 k := by
  induction d1 with
  | nil => simp [dictGet]
  | cons p rest ih =>
    obtain ⟨k1, v1⟩ := p
    by_cases h : k = k1 <;> simp [dictGet, h, ih]

theorem dictGet_of_mem {α : Type} {m : List (String × α)} {k : String} {v : α}
    (hnd : (m.map Prod.fst).Nodup) (hm : (k, v) ∈ m) : dictGet m k = some v := by
  induction m with
  | nil => cases hm
  | cons p rest ih =>
    obtain ⟨k1, v1⟩ := p
    simp only [List.map_cons, List.nodup_cons] at hnd
    rcases List.mem_cons.mp hm with h | h
    · cases h; simp [dictGet]
    · have hne : k ≠ k1 := by
        rintro rfl
        exact hnd.1 (List.mem_map.mpr ⟨(k, v), h, rfl⟩)
      simp [dictGet, hne, ih hnd.2 h]

theorem dictGet_cons {α : Type} (k k1 : String) (v1 : α) (rest : List (String × α)) :
    dictGet ((k1, v1) :: rest) k = if k = k1 then some v1 else dictGet rest k := rfl

theorem dictReplace_key_eq {α : Type} (k : String) (v v1 : α) :
    dictReplace k v (k, v1) = (k, v) := by
  simp [dictReplace]

theorem dictReplace_key_ne {α : Type} (k : String) (v : α) (p : String × α) (h : p.1 ≠ k) :
    dictReplace k v p = p := by
  simp [dictReplace, h]

theorem dictGet_replace_ne {α : Type} (d : List (String × α)) (k n : String) (v : α)
    (hne : n ≠ k) :
    dictGet (d.map (dictReplace k v)) n = dictGet d n := by
  induction d with
  | nil => rfl
  | cons p rest ih =>
    obtain ⟨k1, v1⟩ := p
    rw [List.map_cons]
    by_cases h1 : k1 = k
    · subst h1
      rw [dictReplace_key_eq, dictGet_cons, dictGet_cons, if_neg hne, if_neg hne, ih]
    · rw [dictReplace_key_ne k v (k1, v1) h1, dictGet_cons, dictGet_cons]
      by_cases hn : n = k1
      · rw [if_pos hn, if_pos hn]
      · rw [if_neg hn, if_neg hn, ih]

theorem dictGet_replace_self {α : Type} (d : List (String × α)) (k : String) (v : α)
    (hs : (dictGet d k).isSome) :
    dictGet (d.map (dictReplace k v)) k = some v := by
  induction d with
  | nil => simp [dictGet] at hs
  | cons p rest ih =>
    obtain ⟨k1, v1⟩ := p
    rw [List.map_cons]
    by_cases h1 : k1 = k
    · subst h1
      rw [dictReplace_key_eq, dictGet_cons, if_pos rfl]
    · have hk : k ≠ k1 := fun h => h1 h.symm
      rw [dictGet_cons, if_neg hk] at hs
      rw [dictReplace_key_ne k v (k1, v1) h1, dictGet_cons, if_neg hk, ih hs]

theorem dictGet_dictInsert {α : Type} (d : List (String × α)) (k n : String) (v : α) :
    dictGet (dictInsert d k v) n = if n = k then some v else dictGet d n := by
  unfold dictInsert
  by_cases hs : (dictGet d k).isSome
  · rw [if_pos hs]
    by_cases hn : n = k
    · subst hn; rw [if_pos rfl, dictGet_replace_self d n v hs]
    · rw [if_neg hn, dictGet_replace_ne d k n v hn]
  · rw [if_neg hs, dictGet_append]
    have hnone : dictGet d k = none := Option.not_isSome_iff_eq_none.mp hs
    by_cases hn : n = k
    · subst hn; simp [hnone, dictGet]
    · cases h : dictGet d n <;> simp [h, dictGet, hn]

/-! Decomposition of the differ loop into per-entry verdicts and fragments. -/

theorem diff_case_step_split (junit5_test_suite : TestSuite) (p : Bool) (h : String)
    (fc : Bool) (tc : String × String) :
    diff_case_step junit5_test_suite (p, h, fc) tc =
      (p && case_ok junit5_test_suite tc, h ++ case_frag junit5_test_suite fc tc, false) := by
  unfold diff_case_step case_ok case_frag
  cases hg : dictGet junit5_test_suite.test_cases tc.1 with
  | none => cases fc <;> simp [hg, String.append_assoc, String.empty_append]
  | some s5 =>
    by_cases he : s5 = tc.2 <;> cases fc <;>
      simp [hg, he, String.append_assoc, String.empty_append]

theorem foldl_case_split (junit5_test_suite : TestSuite) (l : List (String × String)) :
    ∀ (p : Bool) (h : String) (fc : Bool),
      l.foldl (diff_case_step junit5_test_suite) (p, h, fc) =
        (p && l.all (case_ok junit5_test_suite),
         h ++ cases_frag junit5_test_suite fc l,
         fc && l.isEmpty) := by
  induction l with
  | nil => intro p h fc; simp [cases_frag, String.append_empty]
  | cons tc rest ih =>
    intro p h fc
    rw [List.foldl_cons, diff_case_step_split, ih]
    simp [cases_frag, String.append_assoc, Bool.and_assoc]

theorem diff_suite_entry_split (junit5_dict : SuiteMap) (acc : Bool × String)
    (e : String × TestSuite) :
    diff_suite_entry junit5_dict acc e =
      (acc.1 && entry_ok junit5_dict e, acc.2 ++ entry_frag junit5_dict e) := by
  obtain ⟨p, h⟩ := acc
  unfold diff_suite_entry entry_ok entry_frag
  cases hg : dictGet junit5_dict e.1 with
  | none => simp [hg, String.append_assoc]
  | some s5 =>
    simp only [hg]
    rw [foldl_case_split]
    by_cases hsum : (get_summary_diff_html e.2 s5).1 <;>
      by_cases hemp : e.2.test_cases.isEmpty <;>
        simp [hsum, hemp, Bool.and_assoc, String.append_assoc, String.append_empty]

theorem diff_fold_split (junit4_dict junit5_dict : SuiteMap) :
    ∀ (p : Bool) (h : String),
      junit4_dict.foldl (diff_suite_entry junit5_dict) (p, h) =
        (p && junit4_dict.all (entry_ok junit5_dict),
         h ++ suites_frag junit5_dict junit4_dict) := by
  induction junit4_dict with
  | nil => intro p h; simp [suites_frag, String.append_empty]
  | cons e rest ih =>
    intro p h
    rw [List.foldl_cons, diff_suite_entry_split, ih]
    simp [suites_frag, Bool.and_assoc, String.append_assoc]

theorem diff_fold_eq (junit4_dict junit5_dict : SuiteMap) :
    diff_fold junit4_dict junit5_dict =
      (junit4_dict.all (entry_ok junit5_dict), suites_frag junit5_dict junit4_dict) := by
  unfold diff_fold
  rw [diff_fold_split]
  simp [String.empty_append]

theorem diff_dict_passDiff (junit4_dict junit5_dict : SuiteMap) (html : Option String) :
    (diff_dict junit4_dict junit5_dict html).passDiff =
      junit4_dict.all (entry_ok junit5_dict) := by
  unfold diff_dict
  rw [diff_fold_eq]

theorem diff_dict_htmlContent (junit4_dict junit5_dict : SuiteMap) (html : Option String) :
    (diff_dict junit4_dict junit5_dict html).htmlContent =
      suites_frag junit5_dict junit4_dict := by
  unfold diff_dict
  rw [diff_fold_eq]

/-! Characterisation of the counter comparison. -/

theorem get_num_diff_fst (junit4_num junit5_num : String) :
    (get_num_diff_html junit4_num junit5_num).1 = decide (junit4_num = junit5_num) := by
  unfold get_num_diff_html
  by_cases h : junit4_num = junit5_num <;> simp [h]

theorem get_summary_diff_fst (s4 s5 : TestSuite) :
    (get_summary_diff_html s4 s5).1 =
      (decide (s4.total_num = s5.total_num) && decide (s4.failure_num = s5.failure_num) &&
       decide (s4.error_num = s5.error_num) && decide (s4.skipped_num = s5.skipped_num)) := by
  simp only [get_summary_diff_html, get_num_diff_fst]

/-! Further dictionary lemmas. -/

theorem dictGet_eq_none {α : Type} {l : List (String × α)} {k : String} :
    dictGet l k = none ↔ k ∉ l.map Prod.fst := by
  induction l with
  | nil => simp [dictGet]
  | cons p rest ih =>
    obtain ⟨k1, v1⟩ := p
    rw [dictGet_cons]
    by_cases h : k = k1 <;> simp [h, ih]

theorem mem_of_dictGet {α : Type} {l : List (String × α)} {k : String} {v : α}
    (h : dictGet l k = some v) : (k, v) ∈ l := by
  induction l with
  | nil => simp [dictGet] at h
  | cons p rest ih =>
    obtain ⟨k1, v1⟩ := p
    rw [dictGet_cons] at h
    by_cases hk : k = k1
    · rw [if_pos hk] at h
      cases h; subst hk; exact List.mem_cons_self _ _
    · rw [if_neg hk] at h
      exact List.mem_cons_of_mem _ (ih h)

theorem dictGet_perm {α : Type} {l l' : List (String × α)} (hp : l.Perm l')
    (hnd : (l.map Prod.fst).Nodup) (k : String) : dictGet l k = dictGet l' k := by
  have hnd' : (l'.map Prod.fst).Nodup := ((hp.map Prod.fst).nodup_iff).mp hnd
  cases h : dictGet l k with
  | some v => exact (dictGet_of_mem hnd' (hp.mem_iff.mp (mem_of_dictGet h))).symm
  | none =>
    refine (dictGet_eq_none.mpr ?_).symm
    intro hk
    exact dictGet_eq_none.mp h (((hp.map Prod.fst).mem_iff).mpr hk)

theorem all_perm {α : Type} {l l' : List α} (hp : l.Perm l') (f : α → Bool) :
    l.all f = l'.all f := by
  induction hp with
  | nil => rfl
  | cons x _ ih => simp [List.all_cons, ih]
  | swap x y l => simp [List.all_cons, Bool.and_left_comm]
  | trans _ _ ih1 ih2 => rw [ih1, ih2]

/-! Congruence of the per-entry verdict and fragment in the candidate
dictionary: only lookups at baseline keys matter. -/

theorem case_congr (s5 s5' : TestSuite) (fc : Bool) (tc : String × String)
    (h : dictGet s5.test_cases tc.1 = dictGet s5'.test_cases tc.1) :
    case_ok s5 tc = case_ok s5' tc ∧ case_frag s5 fc tc = case_frag s5' fc tc := by
  constructor
  · unfold case_ok; rw [h]
  · unfold case_frag; rw [h]

theorem cases_frag_congr (s5 s5' : TestSuite) (l : List (String × String))
    (h : ∀ tc ∈ l, dictGet s5.test_cases tc.1 = dictGet s5'.test_cases tc.1) :
    ∀ fc, cases_frag s5 fc l = cases_frag s5' fc l := by
  induction l with
  | nil => intro fc; rfl
  | cons tc rest ih =>
    intro fc
    unfold cases_frag
    rw [(case_congr s5 s5' fc tc (h tc (List.mem_cons_self _ _))).2,
      ih (fun x hx => h x (List.mem_cons_of_mem _ hx)) false]

theorem cases_all_congr (s5 s5' : TestSuite) (l : List (String × String))
    (h : ∀ tc ∈ l, dictGet s5.test_cases tc.1 = dictGet s5'.test_cases tc.1) :
    l.all (case_ok s5) = l.all (case_ok s5') := by
  induction l with
  | nil => rfl
  | cons tc rest ih =>
    rw [List.all_cons, List.all_cons,
      (case_congr s5 s5' true tc (h tc (List.mem_cons_self _ _))).1,
      ih (fun x hx => h x (List.mem_cons_of_mem _ hx))]

theorem summary_congr (s4 s5 s5' : TestSuite)
    (h1 : s5.total_num = s5'.total_num) (h2 : s5.failure_num = s5'.failure_num)
    (h3 : s5.error_num = s5'.error_num) (h4 : s5.skipped_num = s5'.skipped_num) :
    get_summary_diff_html s4 s5 = get_summary_diff_html s4 s5' := by
  unfold get_summary_diff_html get_num_diff_html get_summary
  rw [h1, h2, h3, h4]

theorem entry_ok_some (c : SuiteMap) (e : String × TestSuite) (s5 : TestSuite)
    (hc : dictGet c e.1 = some s5) :
    entry_ok c e = (e.2.test_cases.all (case_ok s5) && (get_summary_diff_html e.2 s5).1) := by
  unfold entry_ok
  rw [hc]

theorem entry_ok_none (c : SuiteMap) (e : String × TestSuite)
    (hc : dictGet c e.1 = none) : entry_ok c e = false := by
  unfold entry_ok
  rw [hc]

theorem entry_frag_some (c : SuiteMap) (e : String × TestSuite) (s5 : TestSuite)
    (hc : dictGet c e.1 = some s5) :
    entry_frag c e =
      "<tr><td rowspan=\"" ++ toString (e.2.test_cases.length + 2) ++ "\">" ++ e.1 ++ "</td>" ++
        cases_frag s5 true e.2.test_cases ++
        (if e.2.test_cases.isEmpty then "" else "</tr><tr>") ++
        (get_summary_diff_html e.2 s5).2 := by
  unfold entry_frag
  rw [hc]

theorem entry_frag_none (c : SuiteMap) (e : String × TestSuite)
    (hc : dictGet c e.1 = none) :
    entry_frag c e =
      "<tr><td>" ++ e.1 ++
        "</td><td colspan=\"4\" style=\"background:#ff7575;\">Junit 4 Test lost.</td></tr>" := by
  unfold entry_frag
  rw [hc]

theorem entry_congr (c c' : SuiteMap) (e : String × TestSuite)
    (h : suiteAgree e.2 (dictGet c e.1) (dictGet c' e.1) = true) :
    entry_ok c e = entry_ok c' e ∧ entry_frag c e = entry_frag c' e := by
  cases hc : dictGet c e.1 with
  | none =>
    cases hc' : dictGet c' e.1 with
    | none =>
      rw [entry_ok_none c e hc, entry_ok_none c' e hc',
        entry_frag_none c e hc, entry_frag_none c' e hc']
      exact ⟨rfl, rfl⟩
    | some s5' => rw [hc, hc'] at h; simp [suiteAgree] at h
  | some s5 =>
    cases hc' : dictGet c' e.1 with
    | none => rw [hc, hc'] at h; simp [suiteAgree] at h
    | some s5' =>
      rw [hc, hc'] at h
      simp only [suiteAgree, Bool.and_eq_true, decide_eq_true_eq, List.all_eq_true] at h
      obtain ⟨⟨⟨⟨ht, hf⟩, he⟩, hs⟩, hcases⟩ := h
      have hsum := summary_congr e.2 s5 s5' ht hf he hs
      rw [entry_ok_some c e s5 hc, entry_ok_some c' e s5' hc',
        entry_frag_some c e s5 hc, entry_frag_some c' e s5' hc']
      constructor
      · rw [cases_all_congr s5 s5' e.2.test_cases hcases, hsum]
      · rw [cases_frag_congr s5 s5' e.2.test_cases hcases true, hsum]

theorem suites_frag_append (c b1 b2 : SuiteMap) :
    suites_frag c (b1 ++ b2) = suites_frag c b1 ++ suites_frag c b2 := by
  induction b1 with
  | nil => simp [suites_frag, String.empty_append]
  | cons e rest ih => simp [suites_frag, ih, String.append_assoc]

/-! Loader lemmas: success, last-write-wins, and error propagation. -/

theorem buildSuites_concat (ss : List TestSuite) (s : TestSuite) :
    buildSuites (ss ++ [s]) = dictInsert (buildSuites ss) s.class_name s := by
  unfold buildSuites
  rw [List.foldl_append]
  rfl

theorem dictGet_buildSuites (ss : List TestSuite) (n : String) :
    dictGet (buildSuites ss) n =
      (ss.filter (fun s => decide (s.class_name = n))).getLast? := by
  induction ss using List.reverseRecOn with
  | nil => rfl
  | append_singleton ss s ih =>
    rw [buildSuites_concat, dictGet_dictInsert, List.filter_append]
    by_cases h : s.class_name = n
    · rw [if_pos h.symm]
      have hf : List.filter (fun s => decide (s.class_name = n)) [s] = [s] := by simp [h]
      rw [hf, List.getLast?_concat]
    · rw [if_neg (fun hn => h hn.symm)]
      have hf : List.filter (fun s => decide (s.class_name = n)) [s] = [] := by simp [h]
      rw [hf, List.append_nil, ih]

theorem buildSuites_eq_map (ss : List TestSuite)
    (hnd : (ss.map (fun s => s.class_name)).Nodup) :
    buildSuites ss = ss.map (fun s => (s.class_name, s)) := by
  induction ss using List.reverseRecOn with
  | nil => rfl
  | append_singleton ss s ih =>
    rw [List.map_append] at hnd
    have h1 : (ss.map (fun s => s.class_name)).Nodup := (List.nodup_append.mp hnd).1
    have h2 : s.class_name ∉ ss.map (fun s => s.class_name) := by
      intro hm
      exact (List.nodup_append.mp hnd).2.2 hm (List.mem_singleton_self _)
    rw [buildSuites_concat, ih h1, List.map_append]
    unfold dictInsert
    have hnone : dictGet (ss.map (fun s => (s.class_name, s))) s.class_name = none := by
      rw [dictGet_eq_none, List.map_map]
      exact h2
    rw [hnone]
    rfl

theorem get_reports_ok_aux (roots : List XMLElement) :
    ∀ d : SuiteMap, (∀ r ∈ roots, exceptIsOk (extract_test_suite r) = true) →
      roots.foldlM
        (fun test_suite_dict test_suite_root => do
          let test_suite_entity ← extract_test_suite test_suite_root
          Except.ok (dictInsert test_suite_dict test_suite_entity.class_name test_suite_entity))
        d =
      Except.ok ((roots.map extractD).foldl
        (fun test_suite_dict s => dictInsert test_suite_dict s.class_name s) d) := by
  induction roots with
  | nil => intro d _; rfl
  | cons r rest ih =>
    intro d hok
    have hr := hok r (List.mem_cons_self r rest)
    cases hex : extract_test_suite r with
    | error msg => rw [hex] at hr; simp [exceptIsOk] at hr
    | ok s =>
      have hD : extractD r = s := by unfold extractD; rw [hex]; rfl
      rw [List.foldlM_cons, hex, List.map_cons, List.foldl_cons, hD]
      show (rest.foldlM _ (dictInsert d s.class_name s)) = _
      exact ih (dictInsert d s.class_name s) (fun x hx => hok x (List.mem_cons_of_mem r hx))

theorem get_reports_dict_ok (roots : List XMLElement)
    (hok : ∀ r ∈ roots, exceptIsOk (extract_test_suite r) = true) :
    get_reports_dict roots = Except.ok (buildSuites (roots.map extractD)) := by
  unfold get_reports_dict buildSuites
  exact get_reports_ok_aux roots [] hok

theorem get_reports_error_aux (pre : List XMLElement) :
    ∀ d : SuiteMap, (∀ r ∈ pre, exceptIsOk (extract_test_suite r) = true) →
      ∀ (e : XMLElement) (post : List XMLElement) (msg : String),
        extract_test_suite e = Except.error msg →
        (pre ++ e :: post).foldlM
          (fun test_suite_dict test_suite_root => do
            let test_suite_entity ← extract_test_suite test_suite_root
            Except.ok (dictInsert test_suite_dict test_suite_entity.class_name test_suite_entity))
          d =
        Except.error msg := by
  induction pre with
  | nil =>
    intro d _ e post msg he
    rw [List.nil_append, List.foldlM_cons, he]
    rfl
  | cons r rest ih =>
    intro d hok e post msg he
    have hr := hok r (List.mem_cons_self r rest)
    cases hex : extract_test_suite r with
    | error m => rw [hex] at hr; simp [exceptIsOk] at hr
    | ok s =>
      rw [List.cons_append, List.foldlM_cons, hex]
      show (rest ++ e :: post).foldlM _ (dictInsert d s.class_name s) = _
      exact ih (dictInsert d s.class_name s)
        (fun x hx => hok x (List.mem_cons_of_mem r hx)) e post msg he

theorem get_reports_dict_error (pre : List XMLElement) (e : XMLElement)
    (post : List XMLElement) (msg : String)
    (hpre : ∀ r ∈ pre, exceptIsOk (extract_test_suite r) = true)
    (he : extract_test_suite e = Except.error msg) :
    get_reports_dict (pre ++ e :: post) = Except.error msg := by
  unfold get_reports_dict
  exact get_reports_error_aux pre [] hpre e post msg he

/-! The diff of a well-formed dictionary against itself. -/

theorem entry_ok_self (b : SuiteMap) (e : String × TestSuite)
    (hnd : (b.map Prod.fst).Nodup) (hm : e ∈ b)
    (hcs : ((e.2).test_cases.map Prod.fst).Nodup) :
    entry_ok b e = true := by
  obtain ⟨n, s4⟩ := e
  rw [entry_ok_some b (n, s4) s4 (dictGet_of_mem hnd hm)]
  have h1 : s4.test_cases.all (case_ok s4) = true := by
    rw [List.all_eq_true]
    intro tc htc
    obtain ⟨cn, st⟩ := tc
    unfold case_ok
    rw [dictGet_of_mem hcs htc]
    simp
  have h2 : (get_summary_diff_html s4 s4).1 = true := by
    rw [get_summary_diff_fst]
    simp
  rw [h1, h2]
  rfl

theorem entry_discrepancies_self (b : SuiteMap) (e : String × TestSuite)
    (hnd : (b.map Prod.fst).Nodup) (hm : e ∈ b)
    (hcs : ((e.2).test_cases.map Prod.fst).Nodup) :
    entry_discrepancies b e = 0 := by
  obtain ⟨n, s4⟩ := e
  have h1 : (s4.test_cases.map (case_discrepancies s4)).sum = 0 := by
    apply List.sum_eq_zero
    intro x hx
    rcases List.mem_map.mp hx with ⟨tc, htc, hval⟩
    obtain ⟨cn, st⟩ := tc
    rw [← hval]
    unfold case_discrepancies
    rw [dictGet_of_mem hcs htc]
    simp
  have h2 : counter_discrepancies s4 s4 = 0 := by
    unfold counter_discrepancies
    simp
  unfold entry_discrepancies
  rw [dictGet_of_mem hnd hm]
  dsimp only
  rw [h1, h2]

/-! Reduction lemmas for `Except` binds and the extraction functions. -/

theorem except_bind_ok {ε α β : Type} (a : α) (f : α → Except ε β) :
    (Except.ok a : Except ε α) >>= f = f a := rfl

theorem except_bind_error {ε α β : Type} (msg : ε) (f : α → Except ε β) :
    (Except.error msg : Except ε α) >>= f = Except.error msg := rfl

theorem extract_fields (e : XMLElement) (s : TestSuite)
    (hex : extract_test_suite e = Except.ok s) :
    dictGet e.attrib "name" = some s.class_name ∧
    dictGet e.attrib "tests" = some s.total_num ∧
    dictGet e.attrib "errors" = some s.error_num ∧
    dictGet e.attrib "failures" = some s.failure_num ∧
    dictGet e.attrib "skipped" = some s.skipped_num := by
  unfold extract_test_suite dictIndex at hex
  cases h1 : dictGet e.attrib "name" with
  | none => simp only [h1, except_bind_error] at hex; exact Except.noConfusion hex
  | some nm =>
  simp only [h1, except_bind_ok] at hex
  cases h2 : dictGet e.attrib "tests" with
  | none => simp only [h2, except_bind_error] at hex; exact Except.noConfusion hex
  | some t =>
  simp only [h2, except_bind_ok] at hex
  cases h3 : dictGet e.attrib "errors" with
  | none => simp only [h3, except_bind_error] at hex; exact Except.noConfusion hex
  | some er =>
  simp only [h3, except_bind_ok] at hex
  cases h4 : dictGet e.attrib "failures" with
  | none => simp only [h4, except_bind_error] at hex; exact Except.noConfusion hex
  | some fa =>
  simp only [h4, except_bind_ok] at hex
  cases h5 : dictGet e.attrib "skipped" with
  | none => simp only [h5, except_bind_error] at hex; exact Except.noConfusion hex
  | some sk =>
  simp only [h5, except_bind_ok] at hex
  cases h6 : extract_test_cases e with
  | error m => simp only [h6, except_bind_error] at hex; exact Except.noConfusion hex
  | ok cs =>
  simp only [h6, except_bind_ok] at hex
  cases hex
  exact ⟨rfl, rfl, rfl, rfl, rfl⟩

theorem extract_cases_aux (l : List XMLElement) :
    ∀ d : List (String × String),
      (∀ tc ∈ l, (dictGet tc.attrib "name").isSome = true) →
      exceptIsOk (l.foldlM
        (fun cases_dict test_case => do
          let n ← dictIndex test_case.attrib "name"
          Except.ok (dictInsert cases_dict n (get_test_case_status test_case)))
        d) = true := by
  induction l with
  | nil => intro d _; rfl
  | cons tc rest ih =>
    intro d hok
    obtain ⟨nm, hnm⟩ :=
      Option.isSome_iff_exists.mp (hok tc (List.mem_cons_self _ _))
    rw [List.foldlM_cons]
    unfold dictIndex
    rw [hnm]
    exact ih (dictInsert d nm (get_test_case_status tc))
      (fun x hx => hok x (List.mem_cons_of_mem _ hx))

theorem extract_test_cases_ok (e : XMLElement)
    (h : ∀ tc ∈ ET_findall e "testcase", (dictGet tc.attrib "name").isSome = true) :
    exceptIsOk (extract_test_cases e) = true := by
  unfold extract_test_cases
  exact extract_cases_aux (ET_findall e "testcase") [] h

theorem extract_isOk_iff (e : XMLElement) :
    exceptIsOk (extract_test_suite e) = true ↔
      ((dictGet e.attrib "name").isSome = true ∧ (dictGet e.attrib "tests").isSome = true ∧
       (dictGet e.attrib "errors").isSome = true ∧ (dictGet e.attrib "failures").isSome = true ∧
       (dictGet e.attrib "skipped").isSome = true ∧
       exceptIsOk (extract_test_cases e) = true) := by
  unfold extract_test_suite dictIndex
  cases h1 : dictGet e.attrib "name" with
  | none => simp [exceptIsOk, except_bind_error]
  | some nm =>
  simp only [except_bind_ok]
  cases h2 : dictGet e.attrib "tests" with
  | none => simp [exceptIsOk, except_bind_error]
  | some t =>
  simp only [except_bind_ok]
  cases h3 : dictGet e.attrib "errors" with
  | none => simp [exceptIsOk, except_bind_error]
  | some er =>
  simp only [except_bind_ok]
  cases h4 : dictGet e.attrib "failures" with
  | none => simp [exceptIsOk, except_bind_error]
  | some fa =>
  simp only [except_bind_ok]
  cases h5 : dictGet e.attrib "skipped" with
  | none => simp [exceptIsOk, except_bind_error]
  | some sk =>
  simp only [except_bind_ok]
  cases h6 : extract_test_cases e with
  | error m => simp [exceptIsOk, except_bind_error]
  | ok cs => simp [exceptIsOk, except_bind_ok]

/-! Claim theorems. -/

/-- C1: the overall verdict of the differ is pass (true) iff every baseline
suite identifier is present in the candidate dictionary, every case of
every baseline suite is present in the matching candidate suite with an
equal outcome, and the four summary counters agree for every matched
suite; in particular diffing two identical (well-formed) suite
dictionaries yields pass with zero discrepancies. -/
theorem diff_pass_iff_spec (junit4_dict junit5_dict : SuiteMap) (html : Option String) :
    ((diff_dict junit4_dict junit5_dict html).passDiff = true ↔
      specPass junit4_dict junit5_dict) ∧
    (WellFormedMap junit4_dict →
      (diff_dict junit4_dict junit4_dict html).passDiff = true ∧
      numDiscrepancies junit4_dict junit4_dict = 0) := by
  constructor
  · rw [diff_dict_passDiff, List.all_eq_true]
    unfold specPass
    constructor
    · intro h e he
      have hentry := h e he
      cases hc : dictGet junit5_dict e.1 with
      | none => rw [entry_ok_none _ _ hc] at hentry; exact Bool.noConfusion hentry
      | some s5 =>
        rw [entry_ok_some _ _ s5 hc, Bool.and_eq_true] at hentry
        obtain ⟨hall, hsum⟩ := hentry
        refine ⟨s5, rfl, ?_, ?_⟩
        · intro tc htc
          have hcase := List.all_eq_true.mp hall tc htc
          unfold case_ok at hcase
          cases hg : dictGet s5.test_cases tc.1 with
          | none => rw [hg] at hcase; exact Bool.noConfusion hcase
          | some st5 =>
            rw [hg] at hcase
            simp only [decide_eq_true_eq] at hcase
            rw [hcase]
        · rw [get_summary_diff_fst] at hsum
          simp only [Bool.and_eq_true, decide_eq_true_eq] at hsum
          exact ⟨hsum.1.1.1, hsum.1.1.2, hsum.1.2, hsum.2⟩
    · intro h e he
      obtain ⟨s5, hc, hcases, ht, hf, herr, hsk⟩ := h e he
      rw [entry_ok_some _ _ s5 hc, Bool.and_eq_true]
      constructor
      · rw [List.all_eq_true]
        intro tc htc
        unfold case_ok
        rw [hcases tc htc]
        simp
      · rw [get_summary_diff_fst]
        simp [ht, hf, herr, hsk]
  · intro hwf
    constructor
    · rw [diff_dict_passDiff, List.all_eq_true]
      intro e he
      exact entry_ok_self _ e hwf.1 he (hwf.2 e he)
    · unfold numDiscrepancies
      apply List.sum_eq_zero
      intro x hx
      rcases List.mem_map.mp hx with ⟨e, he, hval⟩
      rw [← hval]
      exact entry_discrepancies_self _ e hwf.1 he (hwf.2 e he)

/-- Witness for C1: at a concrete well-formed dictionary, diffing it
against itself passes with zero discrepancies. -/
theorem diff_pass_iff_spec_witness :
    (diff_dict [("S", suiteAEx)] [("S", suiteAEx)] none).passDiff = true ∧
    numDiscrepancies [("S", suiteAEx)] [("S", suiteAEx)] = 0 :=
  (diff_pass_iff_spec [("S", suiteAEx)] [("S", suiteAEx)] none).2 (by constructor <;> decide)

/-- C2 counterexample: `diff_dict` computes the pass boolean but does not
return it to its caller — the function returns Python `None` even though
the computed verdict at this input is `true`. -/
theorem diff_retVal_counterexample :
    (diff_dict [] [] none).passDiff = true ∧
    ¬((diff_dict [] [] none).retVal = some (diff_dict [] [] none).passDiff) := by
  constructor
  · rfl
  · intro h
    exact Option.noConfusion h

/-- C2 (amended): the pass boolean is always computed and is independent
of whether a rendered report was requested, but it is not returned: the
differ's return value is `None`. -/
theorem diff_pass_always_computed (junit4_dict junit5_dict : SuiteMap)
    (html html' : Option String) :
    (diff_dict junit4_dict junit5_dict html).passDiff =
      (diff_dict junit4_dict junit5_dict html').passDiff ∧
    (diff_dict junit4_dict junit5_dict html).retVal = none :=
  ⟨rfl, rfl⟩

/-- C3: a case's outcome is decided by checking the child markers in the
fixed priority order error, skipped, failure — the first marker present
wins, error taking precedence over all — and a case with none of the three
markers is a success. -/
theorem get_test_case_status_priority (test_case : XMLElement) :
    (get_test_case_status test_case = "error" ↔
      (ET_find test_case "error").isSome = true) ∧
    (get_test_case_status test_case = "skipped" ↔
      ((ET_find test_case "error").isSome = false ∧
       (ET_find test_case "skipped").isSome = true)) ∧
    (get_test_case_status test_case = "failure" ↔
      ((ET_find test_case "error").isSome = false ∧
       (ET_find test_case "skipped").isSome = false ∧
       (ET_find test_case "failure").isSome = true)) ∧
    (get_test_case_status test_case = "success" ↔
      ((ET_find test_case "error").isSome = false ∧
       (ET_find test_case "skipped").isSome = false ∧
       (ET_find test_case "failure").isSome = false)) := by
  unfold get_test_case_status
  cases ET_find test_case "error" with
  | some marker => simp
  | none =>
    cases ET_find test_case "skipped" with
    | some marker => simp
    | none =>
      cases ET_find test_case "failure" with
      | some marker => simp
      | none => simp

/-- C4 counterexample: a report root carrying all five required attributes
whose test case child lacks a `name` attribute still makes extraction
raise a `KeyError`, refuting the claim's converse as stated. -/
theorem extract_all_attrs_still_raises_counterexample :
    ((dictGet rootBadCaseEx.attrib "name").isSome = true ∧
     (dictGet rootBadCaseEx.attrib "tests").isSome = true ∧
     (dictGet rootBadCaseEx.attrib "errors").isSome = true ∧
     (dictGet rootBadCaseEx.attrib "failures").isSome = true ∧
     (dictGet rootBadCaseEx.attrib "skipped").isSome = true) ∧
    extract_test_suite rootBadCaseEx = Except.error "KeyError: name" := by
  constructor
  · decide
  · rfl

/-- C4 (amended): when any of the five required root attributes is absent,
extraction raises an error, which `get_reports_dict` propagates, aborting
the run with no partial result; conversely, when all five root attributes
are present and every test case child carries a `name` attribute,
extraction does not raise. -/
theorem extract_requires_five_attrs (e : XMLElement) :
    ((dictGet e.attrib "name" = none ∨ dictGet e.attrib "tests" = none ∨
        dictGet e.attrib "errors" = none ∨ dictGet e.attrib "failures" = none ∨
        dictGet e.attrib "skipped" = none) →
      exceptIsOk (extract_test_suite e) = false) ∧
    (((dictGet e.attrib "name").isSome = true ∧ (dictGet e.attrib "tests").isSome = true ∧
        (dictGet e.attrib "errors").isSome = true ∧ (dictGet e.attrib "failures").isSome = true ∧
        (dictGet e.attrib "skipped").isSome = true ∧
        (∀ tc ∈ ET_findall e "testcase", (dictGet tc.attrib "name").isSome = true)) →
      exceptIsOk (extract_test_suite e) = true) ∧
    (∀ (pre post : List XMLElement) (msg : String),
      (∀ r ∈ pre, exceptIsOk (extract_test_suite r) = true) →
      extract_test_suite e = Except.error msg →
      get_reports_dict (pre ++ e :: post) = Except.error msg) := by
  refine ⟨?_, ?_, ?_⟩
  · intro hmiss
    cases hok : exceptIsOk (extract_test_suite e) with
    | false => rfl
    | true =>
      exfalso
      have hall := (extract_isOk_iff e).mp hok
      rcases hmiss with h | h | h | h | h
      · rw [h] at hall; simp at hall
      · rw [h] at hall; simp at hall
      · rw [h] at hall; simp at hall
      · rw [h] at hall; simp at hall
      · rw [h] at hall; simp at hall
  · intro hp
    exact (extract_isOk_iff e).mpr
      ⟨hp.1, hp.2.1, hp.2.2.1, hp.2.2.2.1, hp.2.2.2.2.1,
        extract_test_cases_ok e hp.2.2.2.2.2⟩
  · intro pre post msg hpre he
    exact get_reports_dict_error pre e post msg hpre he

/-- Witness for C4: at a concrete root missing the `skipped` attribute,
extraction fails; at a concrete complete root, it succeeds; a failing root
aborts a concrete report directory with its error. -/
theorem extract_requires_five_attrs_witness :
    exceptIsOk (extract_test_suite (XMLElement.mk "testsuite"
      [("name", "S"), ("tests", "1"), ("errors", "0"), ("failures", "0")] [])) = false ∧
    exceptIsOk (extract_test_suite rootOkEx) = true ∧
    get_reports_dict [rootOkEx, XMLElement.mk "testsuite" [] []] =
      Except.error "KeyError: name" :=
  ⟨(extract_requires_five_attrs (XMLElement.mk "testsuite"
      [("name", "S"), ("tests", "1"), ("errors", "0"), ("failures", "0")] [])).1
      (Or.inr (Or.inr (Or.inr (Or.inr rfl)))),
   (extract_requires_five_attrs rootOkEx).2.1 (by decide),
   (extract_requires_five_attrs (XMLElement.mk "testsuite" [] [])).2.2
      [rootOkEx] [] "KeyError: name" (by decide) rfl⟩

/-- C5: the whole diff result depends on the candidate dictionary only
through lookups at baseline suite identifiers and, inside a matched suite,
lookups at baseline case names and the four counters — suites or cases
present only in the candidate are never surfaced and never affect the
verdict. -/
theorem diff_depends_only_on_baseline (junit4_dict c c' : SuiteMap) (html : Option String)
    (hagree : candAgree junit4_dict c c') :
    diff_dict junit4_dict c html = diff_dict junit4_dict c' html := by
  have hall : junit4_dict.all (entry_ok c) = junit4_dict.all (entry_ok c') := by
    induction junit4_dict with
    | nil => rfl
    | cons e rest ih =>
      rw [List.all_cons, List.all_cons,
        (entry_congr c c' e (hagree e (List.mem_cons_self _ _))).1,
        ih (fun x hx => hagree x (List.mem_cons_of_mem _ hx))]
  have hfrag : suites_frag c junit4_dict = suites_frag c' junit4_dict := by
    clear hall
    induction junit4_dict with
    | nil => rfl
    | cons e rest ih =>
      unfold suites_frag
      rw [(entry_congr c c' e (hagree e (List.mem_cons_self _ _))).2,
        ih (fun x hx => hagree x (List.mem_cons_of_mem _ hx))]
  have hfold : diff_fold junit4_dict c = diff_fold junit4_dict c' := by
    rw [diff_fold_eq, diff_fold_eq, hall, hfrag]
  unfold diff_dict
  rw [hfold]

/-- Witness for C5: adding a candidate-only suite and a candidate-only
case leaves the concrete diff result unchanged. -/
theorem diff_depends_only_on_baseline_witness :
    diff_dict [("S", suiteAEx)] [("S", suiteAEx)] none =
      diff_dict [("S", suiteAEx)] [("S", suiteAPlusEx), ("U", suiteDEx)] none :=
  diff_depends_only_on_baseline [("S", suiteAEx)]
    [("S", suiteAEx)] [("S", suiteAPlusEx), ("U", suiteDEx)] none (by decide)

/-- C6: when several report files in a directory yield the same suite
identifier, loading raises no duplicate error and the resulting dictionary
holds, for every identifier, the record extracted from the last file that
produced it — earlier records are silently discarded. -/
theorem get_reports_last_write_wins (roots : List XMLElement)
    (hok : ∀ r ∈ roots, exceptIsOk (extract_test_suite r) = true) :
    get_reports_dict roots = Except.ok (buildSuites (roots.map extractD)) ∧
    ∀ n, dictGet (buildSuites (roots.map extractD)) n =
      ((roots.map extractD).filter (fun s => decide (s.class_name = n))).getLast? :=
  ⟨get_reports_dict_ok roots hok,
   fun n => dictGet_buildSuites (roots.map extractD) n⟩

/-- Witness for C6: two concrete files yielding the identifier `S` load
without error and the second file's record wins. -/
theorem get_reports_last_write_wins_witness :
    get_reports_dict [rootFailEx, rootOkEx] =
      Except.ok (buildSuites ([rootFailEx, rootOkEx].map extractD)) ∧
    dictGet (buildSuites ([rootFailEx, rootOkEx].map extractD)) "S" =
      (([rootFailEx, rootOkEx].map extractD).filter
        (fun s => decide (s.class_name = "S"))).getLast? ∧
    dictGet (buildSuites ([rootFailEx, rootOkEx].map extractD)) "S" =
      some (extractD rootOkEx) :=
  ⟨(get_reports_last_write_wins [rootFailEx, rootOkEx] (by decide)).1,
   (get_reports_last_write_wins [rootFailEx, rootOkEx] (by decide)).2 "S",
   by decide⟩

/-- C7 counterexample: permuting the discovery order of a baseline
directory whose two files yield the same suite identifier `S` flips the
final verdict from pass to fail, because the overwrite winner changes. -/
theorem run_verdict_perm_counterexample :
    List.Perm [rootFailEx, rootOkEx] [rootOkEx, rootFailEx] ∧
    run_verdict [rootFailEx, rootOkEx] [rootOkEx] = Except.ok true ∧
    run_verdict [rootOkEx, rootFailEx] [rootOkEx] = Except.ok false :=
  ⟨List.Perm.swap rootOkEx rootFailEx [], rfl, rfl⟩

/-- C7 (amended): when the suite identifiers extracted within each
directory are pairwise distinct — so the documented overwrite cannot
strike — permuting the discovery order of either directory's files never
changes the final pass/fail verdict; with colliding identifiers the
verdict can change. -/
theorem run_verdict_order_independent (b b' c c' : List XMLElement)
    (hb : b.Perm b') (hc : c.Perm c')
    (hbok : ∀ r ∈ b, exceptIsOk (extract_test_suite r) = true)
    (hcok : ∀ r ∈ c, exceptIsOk (extract_test_suite r) = true)
    (hbn : ((b.map extractD).map (fun s => s.class_name)).Nodup)
    (hcn : ((c.map extractD).map (fun s => s.class_name)).Nodup) :
    run_verdict b c = run_verdict b' c' := by
  have hbok' : ∀ r ∈ b', exceptIsOk (extract_test_suite r) = true :=
    fun r hr => hbok r (hb.mem_iff.mpr hr)
  have hcok' : ∀ r ∈ c', exceptIsOk (extract_test_suite r) = true :=
    fun r hr => hcok r (hc.mem_iff.mpr hr)
  have hbp : (b.map extractD).Perm (b'.map extractD) := hb.map extractD
  have hcp : (c.map extractD).Perm (c'.map extractD) := hc.map extractD
  have hbn' : ((b'.map extractD).map (fun s => s.class_name)).Nodup :=
    ((hbp.map (fun s => s.class_name)).nodup_iff).mp hbn
  have hcn' : ((c'.map extractD).map (fun s => s.class_name)).Nodup :=
    ((hcp.map (fun s => s.class_name)).nodup_iff).mp hcn
  unfold run_verdict
  rw [get_reports_dict_ok b hbok, get_reports_dict_ok c hcok,
    get_reports_dict_ok b' hbok', get_reports_dict_ok c' hcok']
  simp only [except_bind_ok]
  refine congrArg Except.ok ?_
  rw [diff_dict_passDiff, diff_dict_passDiff]
  rw [buildSuites_eq_map _ hbn, buildSuites_eq_map _ hbn',
    buildSuites_eq_map _ hcn, buildSuites_eq_map _ hcn']
  have hCperm : ((c.map extractD).map (fun s => (s.class_name, s))).Perm
      ((c'.map extractD).map (fun s => (s.class_name, s))) := hcp.map _
  have hCnodup : (((c.map extractD).map (fun s => (s.class_name, s))).map Prod.fst).Nodup := by
    rw [List.map_map]
    exact hcn
  have hget : ∀ k, dictGet ((c.map extractD).map (fun s => (s.class_name, s))) k =
      dictGet ((c'.map extractD).map (fun s => (s.class_name, s))) k :=
    fun k => dictGet_perm hCperm hCnodup k
  have hentry : entry_ok ((c.map extractD).map (fun s => (s.class_name, s))) =
      entry_ok ((c'.map extractD).map (fun s => (s.class_name, s))) := by
    funext e
    cases hcge : dictGet ((c.map extractD).map (fun s => (s.class_name, s))) e.1 with
    | none =>
      rw [entry_ok_none _ _ hcge, entry_ok_none _ _ ((hget e.1).symm.trans hcge)]
    | some s5 =>
      rw [entry_ok_some _ _ s5 hcge, entry_ok_some _ _ s5 ((hget e.1).symm.trans hcge)]
  rw [hentry]
  exact all_perm (hbp.map _) _

/-- Witness for C7 (amended): two collision-free concrete directories give
the same verdict after swapping the baseline files. -/
theorem run_verdict_order_independent_witness :
    run_verdict [rootOkEx, rootTEx] [rootOkEx] =
      run_verdict [rootTEx, rootOkEx] [rootOkEx] :=
  run_verdict_order_independent [rootOkEx, rootTEx] [rootTEx, rootOkEx]
    [rootOkEx] [rootOkEx]
    (List.Perm.swap rootTEx rootOkEx []) (List.Perm.refl _)
    (by decide) (by decide) (by decide) (by decide)

/-- C8: the differ treats absence as a signal and never as an exception:
it is a total function, the processing of a baseline dictionary
decomposes entry by entry (so every remaining suite and case is still
processed after a discrepancy), a baseline suite missing from the
candidate is rendered as a lost row and forces the verdict false, and a
baseline case missing from the matched candidate suite forces the verdict
false. -/
theorem diff_absence_is_signal (b1 b2 : SuiteMap) (n : String) (s4 : TestSuite)
    (c : SuiteMap) (html : Option String) :
    ((diff_dict (b1 ++ b2) c html).passDiff =
        ((diff_dict b1 c html).passDiff && (diff_dict b2 c html).passDiff) ∧
     (diff_dict (b1 ++ b2) c html).htmlContent =
        (diff_dict b1 c html).htmlContent ++ (diff_dict b2 c html).htmlContent) ∧
    (dictGet c n = none →
      (diff_dict (b1 ++ (n, s4) :: b2) c html).passDiff = false ∧
      (diff_dict [(n, s4)] c html).htmlContent =
        "<tr><td>" ++ n ++
          "</td><td colspan=\"4\" style=\"background:#ff7575;\">Junit 4 Test lost.</td></tr>") ∧
    (∀ (s5 : TestSuite) (cn st : String),
      dictGet c n = some s5 → (cn, st) ∈ s4.test_cases →
      dictGet s5.test_cases cn = none →
      (diff_dict (b1 ++ (n, s4) :: b2) c html).passDiff = false) := by
  refine ⟨⟨?_, ?_⟩, ?_, ?_⟩
  · rw [diff_dict_passDiff, diff_dict_passDiff, diff_dict_passDiff, List.all_append]
  · rw [diff_dict_htmlContent, diff_dict_htmlContent, diff_dict_htmlContent,
      suites_frag_append]
  · intro hnone
    constructor
    · rw [diff_dict_passDiff, List.all_append, List.all_cons, entry_ok_none c (n, s4) hnone]
      simp
    · rw [diff_dict_htmlContent]
      simp only [suites_frag]
      rw [entry_frag_none c (n, s4) hnone, String.append_empty]
  · intro s5 cn st hsome hmem hcnone
    have hcase : case_ok s5 (cn, st) = false := by
      unfold case_ok
      rw [hcnone]
    have hall : s4.test_cases.all (case_ok s5) = false := by
      cases hA : s4.test_cases.all (case_ok s5) with
      | false => rfl
      | true =>
        exfalso
        have hx := List.all_eq_true.mp hA (cn, st) hmem
        rw [hcase] at hx
        exact Bool.noConfusion hx
    rw [diff_dict_passDiff, List.all_append, List.all_cons,
      entry_ok_some c (n, s4) s5 hsome, hall]
    simp

/-- Witness for C8: a concrete lost suite and a concrete lost case each
force the verdict false. -/
theorem diff_absence_is_signal_witness :
    (diff_dict [("S", suiteAEx)] [] none).passDiff = false ∧
    (diff_dict [("S", suiteAEx)] [("S", TestSuite.mk "S" "1" "0" "0" "0" [])] none).passDiff
      = false :=
  ⟨((diff_absence_is_signal [] [] "S" suiteAEx [] none).2.1 rfl).1,
   (diff_absence_is_signal [] [] "S" suiteAEx
      [("S", TestSuite.mk "S" "1" "0" "0" "0" [])] none).2.2
      (TestSuite.mk "S" "1" "0" "0" "0" []) "t" "success" (by decide) (by decide) rfl⟩

/-- C9: diffing an empty baseline dictionary against any candidate yields
pass with an empty report body and zero discrepancies, however many suites
the candidate holds. -/
theorem diff_empty_baseline (junit5_dict : SuiteMap) (html : Option String) :
    (diff_dict [] junit5_dict html).passDiff = true ∧
    (diff_dict [] junit5_dict html).htmlContent = "" ∧
    numDiscrepancies [] junit5_dict = 0 :=
  ⟨rfl, rfl, rfl⟩

/-- C10: the four summary counters are stored as the raw attribute strings
of the document root and compared by string inequality, never numerically:
a counter pair denoting the same integer in different spellings is
rendered as a flagged difference and forces the overall verdict false. -/
theorem counters_compared_as_strings :
    (∀ (e : XMLElement) (s : TestSuite), extract_test_suite e = Except.ok s →
      dictGet e.attrib "tests" = some s.total_num ∧
      dictGet e.attrib "errors" = some s.error_num ∧
      dictGet e.attrib "failures" = some s.failure_num ∧
      dictGet e.attrib "skipped" = some s.skipped_num) ∧
    (∀ a b : String, strToNat a = strToNat b → a ≠ b →
      get_num_diff_html a b =
        (false, "<span style=\"color:red;\">" ++ b ++ "</span>")) ∧
    (∀ (junit4_dict junit5_dict : SuiteMap) (html : Option String) (n : String)
        (s4 s5 : TestSuite),
      (n, s4) ∈ junit4_dict → dictGet junit5_dict n = some s5 →
      ((s4.total_num ≠ s5.total_num ∧ strToNat s4.total_num = strToNat s5.total_num) ∨
       (s4.failure_num ≠ s5.failure_num ∧ strToNat s4.failure_num = strToNat s5.failure_num) ∨
       (s4.error_num ≠ s5.error_num ∧ strToNat s4.error_num = strToNat s5.error_num) ∨
       (s4.skipped_num ≠ s5.skipped_num ∧ strToNat s4.skipped_num = strToNat s5.skipped_num)) →
      (diff_dict junit4_dict junit5_dict html).passDiff = false) := by
  refine ⟨?_, ?_, ?_⟩
  · intro e s hex
    have hf := extract_fields e s hex
    exact ⟨hf.2.1, hf.2.2.1, hf.2.2.2.1, hf.2.2.2.2⟩
  · intro a b _ hne
    unfold get_num_diff_html
    rw [if_pos hne]
  · intro junit4_dict junit5_dict html n s4 s5 hmem hsome hd
    have hsumf : (get_summary_diff_html s4 s5).1 = false := by
      rw [get_summary_diff_fst]
      rcases hd with ⟨h, _⟩ | ⟨h, _⟩ | ⟨h, _⟩ | ⟨h, _⟩ <;> simp [h]
    have hef : entry_ok junit5_dict (n, s4) = false := by
      rw [entry_ok_some _ _ s5 hsome, hsumf]
      simp
    rw [diff_dict_passDiff]
    cases hA : junit4_dict.all (entry_ok junit5_dict) with
    | false => rfl
    | true =>
      exfalso
      have hx := List.all_eq_true.mp hA (n, s4) hmem
      rw [hef] at hx
      exact Bool.noConfusion hx

/-- Witness for C10: the counter strings `1` and `01` denote the same
integer, yet they are flagged in red and fail a concrete diff. -/
theorem counters_compared_as_strings_witness :
    get_num_diff_html "1" "01" = (false, "<span style=\"color:red;\">01</span>") ∧
    (diff_dict [("S", suiteAEx)] [("S", suiteCEx)] none).passDiff = false :=
  ⟨counters_compared_as_strings.2.1 "1" "01" (by decide) (by decide),
   counters_compared_as_strings.2.2 [("S", suiteAEx)] [("S", suiteCEx)] none "S"
     suiteAEx suiteCEx (by decide) (by decide)
     (Or.inl ⟨by decide, by decide⟩)⟩

end SurefireDiff
